import Mathlib

/-!
Verification development for the Retail Analytics Pipeline repository.

The repository ships a React frontend (pages Pipeline, Dashboard, Forecasting,
CustomerAnalytics, Exports) that talks to a FastAPI analytics backend.  The
frontend sources are embedded below directly.  The backend orchestrator,
dataset validator and forecast engine are not part of the available sources;
their behaviour is modelled from the specification, and every such
definition is marked with a doc comment starting with the words
Modelled from the spec.
-/

namespace RetailPipeline

/-- A pipeline stage descriptor, transcribed from the STAGES constant of the
frontend Pipeline page (src/unnamed/part_002, lines 28 to 41).  The icon
field of the source is a React component value and is omitted here. -/
structure Stage where
  id : String
  label : String
  description : String
  deriving Repr, DecidableEq

/-- The fixed ordered stage list STAGES of the frontend Pipeline page
(src/unnamed/part_002, lines 28 to 41). -/
def STAGES : List Stage :=
  [ ⟨"ingestion", "Data Ingestion", "Load and validate data"⟩,
    ⟨"cleaning", "Data Cleaning", "Remove duplicates, handle nulls"⟩,
    ⟨"feature_engineering", "Feature Engineering", "Create derived features"⟩,
    ⟨"eda", "Exploratory Analysis", "Generate insights"⟩,
    ⟨"rfm_analysis", "RFM Analysis", "Customer segmentation by RFM"⟩,
    ⟨"segmentation", "K-Means Clustering", "Machine learning segmentation"⟩,
    ⟨"clv", "CLV Calculation", "Customer lifetime value"⟩,
    ⟨"kpi_generation", "KPI Generation", "Calculate key metrics"⟩,
    ⟨"performance_analysis", "Performance Analysis", "Monthly & category analysis"⟩,
    ⟨"forecasting", "Sales Forecasting", "Predict future sales"⟩,
    ⟨"report_generation", "Report Generation", "Create HTML reports"⟩,
    ⟨"export", "Data Export", "Export to CSV/Excel"⟩ ]

/-- The ordered list of stage identifiers of STAGES. -/
def stageIds : List String := STAGES.map Stage.id

/-- Total number of pipeline stages. -/
def totalStages : Nat := STAGES.length

/-- Run states of the pipeline status object, from the specification state
machine (idle, running, completed, failed); the frontend Pipeline page
branches on exactly these four string values of its run-state field. -/
inductive RunState
  | idle
  | running
  | completed
  | failed
  deriving Repr, DecidableEq

/-- Modelled from the spec: the Pipeline Status object maintained by the
backend orchestrator (the orchestrator source is not among the available
files).  Fields follow section 3 of the specification: run state,
current_stage, stages_completed, progress (0 to 100), start_time, end_time
and error.  Timestamps are abstracted as natural numbers. -/
structure PipelineStatus where
  state : RunState
  current_stage : Option String
  stages_completed : List String
  progress : ℚ
  start_time : Option Nat
  end_time : Option Nat
  error : Option String
  deriving Repr, DecidableEq

/-- Modelled from the spec: the fresh status installed at the start of a run;
stages_completed is reset, progress is reset to 0, the state becomes
running and start_time is set to the current time. -/
def initialRunStatus (now : Nat) : PipelineStatus :=
  { state := .running
    current_stage := none
    stages_completed := []
    progress := 0
    start_time := some now
    end_time := none
    error := none }

/-- Modelled from the spec: executing one stage of the run.  The stage
outcome function f returns none on success and some message when the stage
raises.  Before the stage, current_stage is set; on success the stage id is
appended to stages_completed and progress advances to
(stages_completed_count / total_stages) times 100; on failure the state
becomes failed, the error message is recorded and end_time is set. -/
def runStage (f : String → Option String) (now : Nat)
    (st : PipelineStatus) (sid : String) : PipelineStatus :=
  let st := { st with current_stage := some sid }
  match f sid with
  | none =>
      let done := st.stages_completed ++ [sid]
      { st with stages_completed := done
                progress := ((done.length : ℚ) * 100) / (totalStages : ℚ) }
  | some msg =>
      { st with state := .failed, error := some msg, end_time := some now }

/-- Modelled from the spec: the orchestrator loop over the fixed stage list.
Stages run strictly in list order; once the status is no longer running
(a stage has failed) later stages are not attempted.  The second component
is the trace of stage ids actually attempted, in order. -/
def runStagesT (f : String → Option String) (now : Nat) :
    PipelineStatus → List String → PipelineStatus × List String
  | st, [] => (st, [])
  | st, sid :: rest =>
      if st.state = .running then
        let st1 := runStage f now st sid
        let r := runStagesT f now st1 rest
        (r.1, sid :: r.2)
      else (st, [])

/-- Modelled from the spec: the closing step of a run.  A status still
running after the whole stage list has succeeded becomes completed with
progress 100 and end_time set; a failed status is left as the loop
produced it. -/
def finalizeRun (fin : Nat) (st : PipelineStatus) : PipelineStatus :=
  if st.state = .running then
    { st with state := .completed, progress := 100, end_time := some fin }
  else st

/-- Modelled from the spec: a full pipeline run.  A fresh running status is
installed, the fixed stage list is iterated, and if every stage succeeded
the state is set to completed with progress 100 and end_time set. -/
def runPipeline (f : String → Option String) (now fin : Nat) : PipelineStatus :=
  finalizeRun fin (runStagesT f now (initialRunStatus now) stageIds).1

/-- Errors rejected at run start, from section 7 of the specification. -/
inductive StartError
  | alreadyRunning
  | noDataset
  deriving Repr, DecidableEq

/-- Modelled from the spec: the run-start guard of the orchestrator.  While a
run is in the running state a new start fails with AlreadyRunningError and
performs no state change; without an active dataset it fails with
NoDatasetError; otherwise a fresh running status is installed.  The result
pairs the status object after the call with the error, if any. -/
def start_run (st : PipelineStatus) (hasDataset : Bool) (now : Nat) :
    PipelineStatus × Option StartError :=
  if st.state = .running then (st, some .alreadyRunning)
  else if hasDataset then (initialRunStatus now, none)
  else (st, some .noDataset)

/-- The required column names of an uploaded dataset, as listed by the
frontend Pipeline page (src/unnamed/part_002, line 295) and the repository
README (src/unnamed/part_000, lines 204 to 216). -/
def requiredColumns : List String :=
  ["transaction_id", "quantity", "transaction_date", "price",
   "customer_id", "transaction_amount"]

/-- Validation failures of the dataset validator, from section 7 of the
specification. -/
inductive ValidationError
  | schemaError (missing : List String)
  | formatError
  deriving Repr, DecidableEq

/-- Modelled from the spec: the dataset validator (its backend source is not
among the available files).  The input is none when the file could not be
parsed as tabular data, and otherwise carries the column names and the row
count of the parsed table.  Unparseable input fails with FormatError; a
parsed table missing any required column fails with SchemaError; otherwise
column count and row count are returned. -/
def validate_dataset (parsed : Option (List String × Nat)) :
    Except ValidationError (Nat × Nat) :=
  match parsed with
  | none => .error .formatError
  | some (cols, nrows) =>
      let missing := requiredColumns.filter (fun c => decide (c ∉ cols))
      if missing.isEmpty then .ok (cols.length, nrows)
      else .error (.schemaError missing)

/-- Forecast-engine failure, from section 7 of the specification. -/
inductive ForecastError
  | insufficientHistory
  deriving Repr, DecidableEq

/-- Window length of the moving-average method (3 periods). -/
def movingAverageWindow : Nat := 3

/-- Number of future periods every forecast method produces (6). -/
def forecastPeriods : Nat := 6

/-- Arithmetic mean of a list of rationals. -/
def mean (xs : List ℚ) : ℚ := xs.sum / (xs.length : ℚ)

/-- The trailing window of the last movingAverageWindow values of a series. -/
def lastWindow (xs : List ℚ) : List ℚ :=
  xs.drop (xs.length - movingAverageWindow)

/-- Modelled from the spec: the moving-average forecast method of the
forecast engine (its backend source is not among the available files).
Fewer than 2 periods of history fails with InsufficientHistoryError;
otherwise the forecast for all 6 future periods equals the trailing average
of the last 3 historical periods, a flat projection. -/
def movingAverageForecast (xs : List ℚ) : Except ForecastError (List ℚ) :=
  if xs.length < 2 then .error .insufficientHistory
  else .ok (List.replicate forecastPeriods (mean (lastWindow xs)))

/-- The status snapshot consumed by the frontend Pipeline page: the field
names of the useState initializer of the status object
(src/unnamed/part_002, lines 90 to 98), in source order. -/
def statusSnapshotFields : List String :=
  ["status", "progress", "current_stage", "stages_completed",
   "start_time", "end_time", "error"]

/-- The key under which the simple Pipeline page reads the run state from the
status response: data.status (src/unnamed/part_003, lines 17 to 18). -/
def fetchStatusRunStateKey : String := "status"

/-- The status-snapshot field list as the specification words it in section 6
(state, current_stage, stages_completed, progress, start_time, end_time,
error); written out for comparison with statusSnapshotFields, which is
transcribed from the source. -/
def specStatusFields : List String :=
  ["state", "current_stage", "stages_completed", "progress",
   "start_time", "end_time", "error"]

/-- The status object held by the frontend Pipeline page
(src/unnamed/part_002, lines 90 to 98).  The run-state field is named
status there; error is null or a message, current_stage is null or a stage
id.  Timestamps are kept as plain strings. -/
structure StatusSnapshot where
  status : String
  progress : ℚ
  current_stage : Option String
  stages_completed : List String
  start_time : Option String
  end_time : Option String
  error : Option String
  deriving Repr, DecidableEq

/-- The getStageStatus helper of the frontend Pipeline page
(src/unnamed/part_002, lines 222 to 226): completed when the stage id is in
stages_completed, failed when an error is present and the stage is the
current stage, pending otherwise. -/
def getStageStatus (st : StatusSnapshot) (stageId : String) : String :=
  if stageId ∈ st.stages_completed then "completed"
  else if st.error.isSome ∧ st.current_stage = some stageId then "failed"
  else "pending"

/-- A JavaScript evaluation error; name resolution of an identifier that is
not in scope raises a ReferenceError naming the identifier. -/
inductive JsError
  | referenceError (ident : String)
  deriving Repr, DecidableEq

/-- Name resolution against a lexical scope, the environment being the list
of identifiers in scope: a ReferenceError is raised exactly when the
identifier is absent. -/
def resolveIdent (scope : List String) (x : String) : Except JsError Unit :=
  if x ∈ scope then .ok () else .error (.referenceError x)

/-- Evaluation of a list of identifier references in order; the first
unresolvable identifier raises its ReferenceError. -/
def evalIdents (scope : List String) : List String → Except JsError Unit
  | [] => .ok ()
  | x :: rest =>
      match resolveIdent scope x with
      | .ok _ => evalIdents scope rest
      | .error e => .error e

/-- Identifiers declared at module scope of the frontend Pipeline page
(src/unnamed/part_002): the imported bindings of lines 1 to 24, the API
constant of line 26 and global process, the STAGES constant, and the two
components StageItem and Pipeline. -/
def pipelineModuleScope : List String :=
  ["React", "useState", "useEffect", "useRef", "useCallback", "axios",
   "Card", "CardContent", "CardHeader", "CardTitle", "CardDescription",
   "Button", "Badge", "Progress", "toast",
   "PlayCircle", "CheckCircle2", "XCircle", "Clock", "Loader2", "Database",
   "Sparkles", "BarChart3", "Users", "LineChart", "FileText", "Upload",
   "FileSpreadsheet", "AlertCircle", "Check",
   "process", "API", "STAGES", "StageItem", "Pipeline"]

/-- Identifiers declared in the body of the Pipeline component
(src/unnamed/part_002, lines 89 to 240): the useState and useRef bindings
and the local function constants. -/
def pipelineComponentScope : List String :=
  ["status", "setStatus", "dataInfo", "setDataInfo", "datasets",
   "setDatasets", "isRunning", "setIsRunning", "isUploading",
   "setIsUploading", "isLoading", "setIsLoading", "pollingInterval",
   "setPollingInterval", "fileInputRef", "fetchDataInfo", "fetchDatasets",
   "fetchStatus", "handleFileUpload", "activateDataset", "startPipeline",
   "getStageStatus", "isStageActive", "formatDuration"]

/-- The dependency array of the useCallback wrapping fetchStatus in the
Pipeline component (src/unnamed/part_002, line 164), as the list of
identifier references it evaluates. -/
def fetchStatusDepArray : List String := ["pollingInterval", "otherDeps"]

/-- Identifiers declared at module scope of the first module of
src/unnamed/part_001 (the Dashboard page): the imported bindings of lines
1 to 30, global process, the API and COLORS constants and the components
KPICard, ChartCard and Dashboard. -/
def dashboardModuleScope : List String :=
  ["React", "useState", "useEffect", "axios",
   "Card", "CardContent", "CardHeader", "CardTitle", "Badge", "Skeleton",
   "DollarSign", "Users", "ShoppingCart", "TrendingUp", "Globe", "Package",
   "ArrowUpRight", "ArrowDownRight",
   "BarChart", "Bar", "XAxis", "YAxis", "CartesianGrid", "Tooltip",
   "ResponsiveContainer", "PieChart", "Pie", "Cell", "LineChart", "Line",
   "Legend",
   "process", "API", "COLORS", "KPICard", "ChartCard", "Dashboard"]

/-- Identifier bindings of the Dashboard component body and of the
useEffect callback enclosing fetchData (src/unnamed/part_001, lines 82 to
129): the useState bindings and the fetchData constant. -/
def dashboardComponentScope : List String :=
  ["kpis", "setKpis", "performance", "setPerformance", "categoryData",
   "setCategoryData", "countryData", "setCountryData", "loading",
   "setLoading", "error", "setError", "fetchData"]

/-- Identifiers declared inside the try block of fetchData
(src/unnamed/part_001, lines 92 to 96): the const res binding, whose scope
ends with the block at line 96. -/
def dashboardTryBlockDecls : List String := ["res"]

/-- The lexical environment in force at the category-processing and
country-processing statements of fetchData (src/unnamed/part_001, lines
102 and 113), which sit after the try/catch of lines 92 to 99: module
scope plus component scope; the try-block binding of res is out of scope
there. -/
def dashboardScopeAfterTry : List String :=
  dashboardModuleScope ++ dashboardComponentScope

/-- The result-processing tail of fetchData (src/unnamed/part_001, lines 101
to 118) at the level of name resolution: the guard at line 102 references
res, and when it resolves the category branch runs setCategoryData; the
guard at line 113 references perfRes, and when it resolves the country
branch runs setCountryData.  The returned flags record which of the two
setters ran, paired with the error that stopped evaluation, if any. -/
def dashboardProcessResults (scope : List String) :
    (Bool × Bool) × Option JsError :=
  match resolveIdent scope "res" with
  | .error e => ((false, false), some e)
  | .ok _ =>
      match resolveIdent scope "perfRes" with
      | .error e => ((true, false), some e)
      | .ok _ => ((true, true), none)

/-! Helper lemmas about the orchestrator loop. -/

lemma runStagesT_nil (f : String → Option String) (now : Nat)
    (st : PipelineStatus) : runStagesT f now st [] = (st, []) := rfl

lemma runStagesT_not_running (f : String → Option String) (now : Nat)
    (st : PipelineStatus) (L : List String) (h : ¬ st.state = .running) :
    runStagesT f now st L = (st, []) := by
  cases L with
  | nil => rfl
  | cons sid rest => simp [runStagesT, h]

lemma runStagesT_cons_running (f : String → Option String) (now : Nat)
    (st : PipelineStatus) (sid : String) (rest : List String)
    (h : st.state = .running) :
    runStagesT f now st (sid :: rest) =
      ((runStagesT f now (runStage f now st sid) rest).1,
        sid :: (runStagesT f now (runStage f now st sid) rest).2) := by
  simp [runStagesT, h]

lemma runStage_ok (f : String → Option String) (now : Nat)
    (st : PipelineStatus) (sid : String) (h : f sid = none) :
    runStage f now st sid =
      { st with current_stage := some sid
                stages_completed := st.stages_completed ++ [sid]
                progress :=
                  (((st.stages_completed.length + 1 : Nat) : ℚ) * 100)
                    / (totalStages : ℚ) } := by
  simp [runStage, h]

lemma runStage_fail (f : String → Option String) (now : Nat)
    (st : PipelineStatus) (sid : String) (msg : String)
    (h : f sid = some msg) :
    runStage f now st sid =
      { st with current_stage := some sid
                state := .failed
                error := some msg
                end_time := some now } := by
  simp [runStage, h]

lemma runStagesT_all_ok (f : String → Option String) (now : Nat) :
    ∀ (L : List String) (st : PipelineStatus), st.state = .running →
      (∀ x ∈ L, f x = none) →
      (runStagesT f now st L).1.state = .running ∧
      (runStagesT f now st L).1.stages_completed
          = st.stages_completed ++ L ∧
      (runStagesT f now st L).2 = L ∧
      (st.progress = ((st.stages_completed.length : ℚ) * 100)
            / (totalStages : ℚ) →
        (runStagesT f now st L).1.progress
          = (((st.stages_completed.length + L.length : Nat) : ℚ) * 100)
              / (totalStages : ℚ)) := by
  intro L
  induction L with
  | nil =>
      intro st hst _
      simp [runStagesT_nil, hst]
  | cons sid rest ih =>
      intro st hst hall
      have hsid : f sid = none := hall sid (List.mem_cons_self _ _)
      have hrest : ∀ x ∈ rest, f x = none :=
        fun x hx => hall x (List.mem_cons_of_mem _ hx)
      have hst1 : (runStage f now st sid).state = .running := by
        rw [runStage_ok f now st sid hsid]
        exact hst
      obtain ⟨h1, h2, h3, h4⟩ := ih (runStage f now st sid) hst1 hrest
      rw [runStagesT_cons_running f now st sid rest hst]
      refine ⟨h1, ?_, by rw [h3], ?_⟩
      · rw [h2, runStage_ok f now st sid hsid]
        simp
      · intro _
        have := h4 (by rw [runStage_ok f now st sid hsid]; simp)
        rw [this, runStage_ok f now st sid hsid]
        simp only [List.length_append, List.length_cons,
          List.length_singleton]
        norm_num
        ring_nf

lemma runStagesT_fail (f : String → Option String) (now : Nat)
    (msg : String) (s : String) (post : List String)
    (hs : f s = some msg) :
    ∀ (pre : List String) (st : PipelineStatus), st.state = .running →
      (∀ x ∈ pre, f x = none) →
      (runStagesT f now st (pre ++ s :: post)).1.state = .failed ∧
      (runStagesT f now st (pre ++ s :: post)).1.stages_completed
          = st.stages_completed ++ pre ∧
      (runStagesT f now st (pre ++ s :: post)).1.error = some msg ∧
      (runStagesT f now st (pre ++ s :: post)).1.end_time = some now ∧
      (runStagesT f now st (pre ++ s :: post)).1.current_stage = some s ∧
      (runStagesT f now st (pre ++ s :: post)).2 = pre ++ [s] := by
  intro pre
  induction pre with
  | nil =>
      intro st hst _
      have hfail := runStage_fail f now st s msg hs
      have hnr : ¬ (runStage f now st s).state = .running := by
        rw [hfail]
        simp
      rw [List.nil_append,
        runStagesT_cons_running f now st s post hst,
        runStagesT_not_running f now _ post hnr, hfail]
      simp
  | cons x pre' ih =>
      intro st hst hall
      have hx : f x = none := hall x (List.mem_cons_self _ _)
      have hpre' : ∀ y ∈ pre', f y = none :=
        fun y hy => hall y (List.mem_cons_of_mem _ hy)
      have hst1 : (runStage f now st x).state = .running := by
        rw [runStage_ok f now st x hx]
        exact hst
      obtain ⟨h1, h2, h3, h4, h5, h6⟩ :=
        ih (runStage f now st x) hst1 hpre'
      rw [List.cons_append,
        runStagesT_cons_running f now st x (pre' ++ s :: post) hst]
      refine ⟨h1, ?_, h3, h4, h5, by simp [h6]⟩
      rw [h2, runStage_ok f now st x hx]
      simp

lemma runStagesT_trace_take (f : String → Option String) (now : Nat) :
    ∀ (L : List String) (st : PipelineStatus),
      ∃ k, k ≤ L.length ∧ (runStagesT f now st L).2 = L.take k := by
  intro L
  induction L with
  | nil => exact fun st => ⟨0, Nat.le_refl 0, rfl⟩
  | cons sid rest ih =>
      intro st
      by_cases hst : st.state = .running
      · obtain ⟨k, hk, htr⟩ := ih (runStage f now st sid)
        refine ⟨k + 1, Nat.succ_le_succ hk, ?_⟩
        rw [runStagesT_cons_running f now st sid rest hst, List.take_succ_cons,
          htr]
      · exact ⟨0, Nat.zero_le _, by
          rw [runStagesT_not_running f now st _ hst]
          simp⟩

lemma finalizeRun_failed (fin : Nat) (st : PipelineStatus)
    (h : st.state = .failed) : finalizeRun fin st = st := by
  rw [finalizeRun, if_neg]
  rw [h]
  simp

lemma finalizeRun_running (fin : Nat) (st : PipelineStatus)
    (h : st.state = .running) :
    finalizeRun fin st =
      { st with state := .completed, progress := 100,
                end_time := some fin } := by
  rw [finalizeRun, if_pos h]

/-! Claim theorems. -/

/-- C1: the pipeline consists of exactly twelve stages in the fixed order
ingestion, cleaning, feature_engineering, eda, rfm_analysis, segmentation,
clv, kpi_generation, performance_analysis, forecasting, report_generation,
export, and every run of the orchestrator iterates this list in this order
and no other: the trace of stages attempted by any run is an initial
segment of the list, and it is the whole list when every stage succeeds. -/
theorem stage_list_fixed_order :
    stageIds = ["ingestion", "cleaning", "feature_engineering", "eda",
      "rfm_analysis", "segmentation", "clv", "kpi_generation",
      "performance_analysis", "forecasting", "report_generation",
      "export"] ∧
    totalStages = 12 ∧
    (∀ (f : String → Option String) (now : Nat), ∃ k, k ≤ totalStages ∧
      (runStagesT f now (initialRunStatus now) stageIds).2
        = stageIds.take k) ∧
    (∀ (f : String → Option String) (now : Nat),
      (∀ s ∈ stageIds, f s = none) →
      (runStagesT f now (initialRunStatus now) stageIds).2 = stageIds) := by
  refine ⟨rfl, rfl, ?_, ?_⟩
  · intro f now
    obtain ⟨k, hk, htr⟩ :=
      runStagesT_trace_take f now stageIds (initialRunStatus now)
    exact ⟨k, hk, htr⟩
  · intro f now hall
    exact (runStagesT_all_ok f now stageIds (initialRunStatus now) rfl
      hall).2.2.1

/-- C1 witness: a concrete all-successful run attempts exactly the twelve
stages in the fixed order. -/
theorem stage_list_fixed_order_witness :
    (runStagesT (fun _ => none) 0 (initialRunStatus 0) stageIds).2
      = stageIds :=
  stage_list_fixed_order.2.2.2 (fun _ => none) 0 (fun _ _ => rfl)

/-- C2: a run that fails at some stage leaves stages_completed containing
exactly the stage ids preceding the failure point, in pipeline order; the
failing stage and every stage after it in the fixed list are absent. -/
theorem failed_run_stages_completed (f : String → Option String)
    (now fin : Nat) (msg : String) (pre post : List String) (s : String)
    (hsplit : stageIds = pre ++ s :: post)
    (hpre : ∀ x ∈ pre, f x = none) (hs : f s = some msg) :
    (runPipeline f now fin).stages_completed = pre ∧
    (runPipeline f now fin).state = .failed ∧
    (runPipeline f now fin).error = some msg ∧
    s ∉ (runPipeline f now fin).stages_completed ∧
    ∀ x ∈ post, x ∉ (runPipeline f now fin).stages_completed := by
  obtain ⟨h1, h2, h3, h4, h5, h6⟩ :=
    runStagesT_fail f now msg s post hs pre (initialRunStatus now) rfl hpre
  have hrp : runPipeline f now fin
      = (runStagesT f now (initialRunStatus now) (pre ++ s :: post)).1 := by
    rw [runPipeline, hsplit]
    exact finalizeRun_failed fin _ h1
  have hnd : (pre ++ s :: post).Nodup := by
    rw [← hsplit]
    decide
  rw [List.nodup_append] at hnd
  have hdisj := hnd.2.2
  have hsc : (runPipeline f now fin).stages_completed = pre := by
    rw [hrp, h2]
    simp [initialRunStatus]
  refine ⟨hsc, by rw [hrp]; exact h1, by rw [hrp]; exact h3, ?_, ?_⟩
  · rw [hsc]
    intro hmem
    exact hdisj hmem (List.mem_cons_self _ _)
  · intro x hx
    rw [hsc]
    intro hmem
    exact hdisj hmem (List.mem_cons_of_mem _ hx)

/-- C2 witness: with a concrete run failing at the eda stage, the final
stages_completed is exactly the three stage ids before it. -/
theorem failed_run_stages_completed_witness :
    (runPipeline
        (fun sid => if sid = "eda" then some "stage raised" else none)
        3 7).stages_completed
      = ["ingestion", "cleaning", "feature_engineering"] :=
  (failed_run_stages_completed
      (fun sid => if sid = "eda" then some "stage raised" else none)
      3 7 "stage raised"
      ["ingestion", "cleaning", "feature_engineering"]
      ["rfm_analysis", "segmentation", "clv", "kpi_generation",
       "performance_analysis", "forecasting", "report_generation",
       "export"]
      "eda" (by decide) (by decide) (by decide)).1

/-- C3: while the pipeline status is running, starting a new run fails with
AlreadyRunningError and returns the status object completely unchanged. -/
theorem start_run_while_running (st : PipelineStatus) (hasDataset : Bool)
    (now : Nat) (h : st.state = .running) :
    start_run st hasDataset now = (st, some .alreadyRunning) := by
  rw [start_run, if_pos h]

/-- C3 witness: a concrete running status is returned unchanged together
with the AlreadyRunningError. -/
theorem start_run_while_running_witness :
    start_run
        { state := .running, current_stage := some "eda",
          stages_completed := ["ingestion", "cleaning"],
          progress := 50 / 3, start_time := some 5, end_time := none,
          error := none } true 9
      = ({ state := .running, current_stage := some "eda",
           stages_completed := ["ingestion", "cleaning"],
           progress := 50 / 3, start_time := some 5, end_time := none,
           error := none }, some .alreadyRunning) :=
  start_run_while_running _ true 9 rfl

/-- C4: after each stage of a run succeeds, progress equals
(stages_completed_count / total_stages) times 100 with total_stages = 12,
and when every stage succeeds the final state is completed with progress
exactly 100. -/
theorem progress_after_stages (f : String → Option String) (now fin : Nat)
    (pre rest : List String) (hsplit : stageIds = pre ++ rest)
    (hpre : ∀ x ∈ pre, f x = none) :
    totalStages = 12 ∧
    (runStagesT f now (initialRunStatus now) pre).1.stages_completed
        = pre ∧
    (runStagesT f now (initialRunStatus now) pre).1.progress
        = ((pre.length : ℚ) * 100) / (totalStages : ℚ) ∧
    ((∀ s ∈ stageIds, f s = none) →
      (runPipeline f now fin).state = .completed ∧
      (runPipeline f now fin).progress = 100) := by
  obtain ⟨g1, g2, g3, g4⟩ :=
    runStagesT_all_ok f now pre (initialRunStatus now) rfl hpre
  refine ⟨rfl, by rw [g2]; simp [initialRunStatus], ?_, ?_⟩
  · have := g4 (by simp [initialRunStatus])
    rw [this]
    simp [initialRunStatus]
  · intro hall
    obtain ⟨k1, _, _, _⟩ :=
      runStagesT_all_ok f now stageIds (initialRunStatus now) rfl hall
    constructor
    · rw [runPipeline, finalizeRun_running fin _ k1]
    · rw [runPipeline, finalizeRun_running fin _ k1]

/-- C4 witness: after the first five stages of a concrete all-successful
run, progress is 5 / 12 of 100, and the full run completes at 100. -/
theorem progress_after_stages_witness :
    (runStagesT (fun _ => none) 0 (initialRunStatus 0)
        ["ingestion", "cleaning", "feature_engineering", "eda",
         "rfm_analysis"]).1.progress = 500 / 12 ∧
    (runPipeline (fun _ => none) 0 1).state = .completed ∧
    (runPipeline (fun _ => none) 0 1).progress = 100 := by
  obtain ⟨-, -, h3, h4⟩ := progress_after_stages (fun _ => none) 0 1
    ["ingestion", "cleaning", "feature_engineering", "eda", "rfm_analysis"]
    ["segmentation", "clv", "kpi_generation", "performance_analysis",
     "forecasting", "report_generation", "export"]
    (by decide) (fun _ _ => rfl)
  refine ⟨?_, h4 (fun _ _ => rfl)⟩
  rw [h3]
  norm_num [totalStages, STAGES]

/-- C5 counterexample: the claim names the run-state field state, but the
status object of the frontend Pipeline page and the status read of the
simple Pipeline page both use the field name status; the name state occurs
in no snapshot field, so the claimed field set differs from the one in the
source. -/
theorem state_field_name_cex :
    "state" ∉ statusSnapshotFields ∧
    "status" ∈ statusSnapshotFields ∧
    fetchStatusRunStateKey ≠ "state" ∧
    specStatusFields ≠ statusSnapshotFields := by
  refine ⟨by decide, by decide, by decide, by decide⟩

/-- C5 amended: the status snapshot consumed by the frontend has exactly the
fields status, current_stage, stages_completed, progress, start_time,
end_time and error; in particular the run-state field is named status, and
that is also the key under which the simple Pipeline page reads the run
state. -/
theorem status_snapshot_fields_amended :
    (∀ x ∈ statusSnapshotFields,
      x ∈ ["status", "current_stage", "stages_completed", "progress",
           "start_time", "end_time", "error"]) ∧
    (∀ x ∈ (["status", "current_stage", "stages_completed", "progress",
             "start_time", "end_time", "error"] : List String),
      x ∈ statusSnapshotFields) ∧
    statusSnapshotFields.Nodup ∧
    fetchStatusRunStateKey = "status" := by
  refine ⟨by decide, by decide, by decide, rfl⟩

/-- C5 witness: the amended field list is realized at the concrete field
name status. -/
theorem status_snapshot_fields_amended_witness :
    "status" ∈ statusSnapshotFields :=
  status_snapshot_fields_amended.2.1 "status" (by decide)

/-- C6: the validator accepts a parsed dataset exactly when every one of the
six required columns is present, fails with SchemaError when any required
column is absent, and fails with FormatError on unparseable input. -/
theorem validate_dataset_required_columns (cols : List String)
    (nrows : Nat) :
    requiredColumns = ["transaction_id", "quantity", "transaction_date",
      "price", "customer_id", "transaction_amount"] ∧
    validate_dataset none = .error .formatError ∧
    ((∃ r, validate_dataset (some (cols, nrows)) = .ok r) ↔
      ∀ c ∈ requiredColumns, c ∈ cols) ∧
    ((∃ c ∈ requiredColumns, c ∉ cols) →
      ∃ missing, missing ≠ [] ∧
        validate_dataset (some (cols, nrows))
          = .error (.schemaError missing)) := by
  have hiff : (requiredColumns.filter
        (fun c => decide (c ∉ cols))).isEmpty = true ↔
      ∀ c ∈ requiredColumns, c ∈ cols := by
    rw [List.isEmpty_iff, List.filter_eq_nil_iff]
    simp
  refine ⟨rfl, rfl, ?_, ?_⟩
  · constructor
    · rintro ⟨r, hr⟩
      rw [validate_dataset] at hr
      by_cases hm : (requiredColumns.filter
          (fun c => decide (c ∉ cols))).isEmpty = true
      · exact hiff.1 hm
      · rw [if_neg hm] at hr
        cases hr
    · intro hall
      rw [validate_dataset, if_pos (hiff.2 hall)]
      exact ⟨_, rfl⟩
  · rintro ⟨c, hc, hcc⟩
    have hmem : c ∈ requiredColumns.filter (fun c => decide (c ∉ cols)) := by
      rw [List.mem_filter]
      exact ⟨hc, by simpa using hcc⟩
    have hne : requiredColumns.filter (fun c => decide (c ∉ cols)) ≠ [] :=
      List.ne_nil_of_mem hmem
    have hm : (requiredColumns.filter
        (fun c => decide (c ∉ cols))).isEmpty ≠ true := by
      simpa [List.isEmpty_iff] using hne
    refine ⟨_, hne, ?_⟩
    rw [validate_dataset, if_neg hm]

/-- C6 witness: a concrete parsed table carrying all six required columns
validates successfully, and the same table without customer_id fails with
SchemaError. -/
theorem validate_dataset_required_columns_witness :
    (∃ r, validate_dataset (some (["transaction_id", "quantity",
      "transaction_date", "price", "customer_id", "transaction_amount",
      "country"], 42)) = .ok r) ∧
    (∃ missing, missing ≠ [] ∧
      validate_dataset (some (["transaction_id", "quantity",
        "transaction_date", "price", "transaction_amount"], 42))
        = .error (.schemaError missing)) :=
  ⟨(validate_dataset_required_columns _ 42).2.2.1.mpr (by decide),
   (validate_dataset_required_columns _ 42).2.2.2
     ⟨"customer_id", by decide, by decide⟩⟩

/-- C7: for every monthly revenue series with at least 2 periods, the
moving-average method returns a 6-period forecast all of whose values equal
the arithmetic mean of the last 3 historical periods, a flat projection. -/
theorem moving_average_flat_forecast (xs : List ℚ) (h : 2 ≤ xs.length) :
    ∃ fc, movingAverageForecast xs = .ok fc ∧ fc.length = 6 ∧
      ∀ v ∈ fc, v = mean (xs.drop (xs.length - 3)) := by
  rw [movingAverageForecast, if_neg (by omega)]
  exact ⟨_, rfl, by simp [forecastPeriods],
    fun v hv => List.eq_of_mem_replicate hv⟩

/-- C7 witness: on the concrete series 10, 20, 30, 40 the moving-average
forecast is six copies of 30, the mean of the last three values. -/
theorem moving_average_flat_forecast_witness :
    ∃ fc, movingAverageForecast [10, 20, 30, 40] = .ok fc ∧
      fc.length = 6 ∧
      ∀ v ∈ fc, v = mean (([10, 20, 30, 40] : List ℚ).drop
        (([10, 20, 30, 40] : List ℚ).length - 3)) :=
  moving_average_flat_forecast [10, 20, 30, 40] (by decide)

/-- C8: getStageStatus returns completed exactly when the stage id is in
stages_completed; it returns failed only when an error is present, the
stage is the current stage and the stage is not in stages_completed; in the
remaining cases it returns pending; a stage listed in stages_completed is
never displayed as failed. -/
theorem getStageStatus_cases (st : StatusSnapshot) (sid : String) :
    (getStageStatus st sid = "completed" ↔ sid ∈ st.stages_completed) ∧
    (getStageStatus st sid = "failed" →
      st.error.isSome = true ∧ st.current_stage = some sid ∧
        sid ∉ st.stages_completed) ∧
    (sid ∉ st.stages_completed →
      ¬(st.error.isSome = true ∧ st.current_stage = some sid) →
      getStageStatus st sid = "pending") ∧
    (sid ∈ st.stages_completed → getStageStatus st sid ≠ "failed") := by
  unfold getStageStatus
  by_cases h1 : sid ∈ st.stages_completed
  · rw [if_pos h1]
    refine ⟨by simp [h1], ?_, ?_, ?_⟩
    · intro hc
      exact absurd hc (by decide)
    · intro hn
      exact absurd h1 hn
    · intro _
      decide
  · rw [if_neg h1]
    by_cases h2 : st.error.isSome = true ∧ st.current_stage = some sid
    · rw [if_pos h2]
      refine ⟨?_, fun _ => ⟨h2.1, h2.2, h1⟩, ?_, ?_⟩
      · constructor
        · intro hc
          exact absurd hc (by decide)
        · intro hmem
          exact absurd hmem h1
      · intro _ hn
        exact absurd h2 hn
      · intro hmem
        exact absurd hmem h1
    · rw [if_neg h2]
      refine ⟨?_, ?_, fun _ _ => rfl, ?_⟩
      · constructor
        · intro hc
          exact absurd hc (by decide)
        · intro hmem
          exact absurd hmem h1
      · intro hc
        exact absurd hc (by decide)
      · intro hmem
        exact absurd hmem h1

/-- C8 witness: on a concrete failed snapshot, a stage that is neither
completed nor current is displayed as pending, and a completed stage is not
displayed as failed. -/
theorem getStageStatus_cases_witness :
    getStageStatus
        { status := "failed", progress := 25, current_stage := some "eda",
          stages_completed := ["ingestion", "cleaning",
            "feature_engineering"],
          start_time := some "t0", end_time := some "t1",
          error := some "stage raised" } "kpi_generation" = "pending" :=
  (getStageStatus_cases _ "kpi_generation").2.2.1 (by decide) (by decide)

/-- C9: the dependency array of the useCallback around fetchStatus in the
frontend Pipeline page names the identifier otherDeps, which is declared
neither at module scope nor in the component body, so evaluating the
array during the component body raises ReferenceError for otherDeps. -/
theorem fetchStatus_dep_array_reference_error :
    "otherDeps" ∈ fetchStatusDepArray ∧
    "otherDeps" ∉ pipelineModuleScope ++ pipelineComponentScope ∧
    "pollingInterval" ∈ pipelineComponentScope ∧
    evalIdents (pipelineModuleScope ++ pipelineComponentScope)
        fetchStatusDepArray
      = .error (.referenceError "otherDeps") := by
  refine ⟨by decide, by decide, by decide, rfl⟩

/-- C10: in the fetchData of the broken Dashboard module, res is declared
inside the try block and is out of scope at the category-processing
statement, and perfRes is declared nowhere, so name resolution of the
result-processing code raises ReferenceError before either setter runs,
and no scope lacking perfRes can ever reach the branch that populates both
categoryData and countryData. -/
theorem dashboard_fetchData_reference_errors :
    "res" ∈ dashboardTryBlockDecls ∧
    "res" ∉ dashboardScopeAfterTry ∧
    "perfRes" ∉ dashboardScopeAfterTry ++ dashboardTryBlockDecls ∧
    dashboardProcessResults dashboardScopeAfterTry
      = ((false, false), some (.referenceError "res")) ∧
    dashboardProcessResults ("res" :: dashboardScopeAfterTry)
      = ((true, false), some (.referenceError "perfRes")) ∧
    (∀ scope, "perfRes" ∉ scope →
      (dashboardProcessResults scope).1 ≠ (true, true)) := by
  refine ⟨by decide, by decide, by decide, rfl, rfl, ?_⟩
  intro scope hsc
  unfold dashboardProcessResults resolveIdent
  by_cases hres : "res" ∈ scope
  · rw [if_pos hres, if_neg hsc]
    simp
  · rw [if_neg hres]
    simp

/-- C10 witness: at the actual lexical environment of the Dashboard module
the branch populating both chart data sets is not reached. -/
theorem dashboard_fetchData_reference_errors_witness :
    (dashboardProcessResults dashboardScopeAfterTry).1 ≠ (true, true) :=
  dashboard_fetchData_reference_errors.2.2.2.2.2 dashboardScopeAfterTry
    (by decide)

end RetailPipeline
